import Mathlib

/-!
# Verification of the live-dashboard aggregation logic

Shallow embedding of `get_live_dashboard` (and its helper
`abbreviate_stat`) from `src/flask_app.py` of the
Video_Game_Stats_Tracker repository, together with the SQL aggregates
the endpoint issues against the `fact.fact_game_stats` table.

Modelling conventions:
* a row of `fact.fact_game_stats` is a `StatRecord`; `stat_value` is an
  `INTEGER` column, modelled as `Int`; the nullable `win` column is
  `Option Int`; the nullable `stat_type` column is `Option String`;
* `played_at` timestamps are abstract instants (`Nat`); the SQL
  expression `CAST(CONVERT_TIMEZONE(tz, played_at) AS DATE)` is an
  abstract instant-to-date function `Nat → Nat` looked up from the
  timezone string (lookup failure models the `CONVERT_TIMEZONE` error
  caught by the handler, which then falls back to plain
  `CAST(GETDATE() AS DATE)`, i.e. UTC);
* SQL `AVG` over integers is the exact rational mean; Python's `round`
  is round-half-to-even (`pyRound`);
* the handler result also carries the number of SQL statements
  executed, so that "rejected before any query" is expressible.
-/

namespace VGS

/-- One row of `fact.fact_game_stats` (the columns the endpoint reads). -/
structure StatRecord where
  player_id : Nat
  game_id : Nat
  stat_type : Option String
  stat_value : Int
  win : Option Int
  played_at : Nat
deriving DecidableEq, Repr

/-- The database visible to the endpoint: the single
`dim.dim_dashboard_state` row (absent, or with nullable
`current_player_id` / `current_game_id`) and the fact table. -/
structure Db where
  state : Option (Option Nat × Option Nat)
  records : List StatRecord
deriving Repr

/-- Server-side configuration and clock: the OBS shared secret, the
timezone table (`CONVERT_TIMEZONE` semantics; `none` = conversion
error), the UTC date function (`CAST(GETDATE() AS DATE)`), and the
current instant. -/
structure Env where
  secret : String
  tz : String → Option (Nat → Nat)
  utc : Nat → Nat
  now : Nat

/-- The request: the `key` query parameter and the optional `tz`
parameter (`request.args.get('tz', 'UTC')`). -/
structure Request where
  key : Option String
  tzArg : Option String
deriving DecidableEq, Repr

/-- A JSON stat value: a number, or the `"---"` sentinel string. -/
inductive StatValue where
  | int (n : Int)
  | str (s : String)
deriving DecidableEq, Repr

/-- One `{"label": ..., "value": ...}` object of the response. -/
structure Entry where
  label : String
  value : StatValue
deriving DecidableEq, Repr

/-- The success payload: the `stat1`..`statN` keys in insertion order,
plus the `time_period` field. -/
structure DashResponse where
  stats : List (String × Entry)
  time_period : String
deriving DecidableEq, Repr

/-- The endpoint outcome: 200 with a payload, 401 (bad key), 404 (no
dashboard state selected), or 500 (an exception reached the outer
`except` block). -/
inductive DashResult where
  | ok (resp : DashResponse)
  | unauthorized
  | noState
  | error
deriving DecidableEq, Repr

/-! ## SQL aggregates over the fact table -/

/-- Row filter of the stat-type selection queries:
`game_id = %s AND stat_type IS NOT NULL AND stat_type != '' AND stat_value > 0`. -/
def relevantStat (g : Nat) (r : StatRecord) : Bool :=
  r.game_id == g &&
    (match r.stat_type with
     | some s => s != ""
     | none => false) &&
    decide (0 < r.stat_value)

/-- The `GROUP BY stat_type` keys of the selection query, in first
occurrence order. -/
def statTypes (recs : List StatRecord) (g : Nat) : List String :=
  ((recs.filter (relevantStat g)).filterMap (·.stat_type)).dedup

/-- The rows of one `stat_type` group of the selection query. -/
def typeRecs (recs : List StatRecord) (g : Nat) (t : String) : List StatRecord :=
  (recs.filter (relevantStat g)).filter (fun r => r.stat_type == some t)

/-- `AVG(stat_value)` of one group, as an exact rational
(`mkRat s n` is the rational `s / n`; see `avgFor_eq_div`). -/
def avgFor (recs : List StatRecord) (g : Nat) (t : String) : Rat :=
  mkRat (((typeRecs recs g t).map (·.stat_value)).sum) ((typeRecs recs g t).length)

/-- The groups surviving `HAVING AVG(stat_value) > 0`. -/
def qualifying (recs : List StatRecord) (g : Nat) : List String :=
  (statTypes recs g).filter (fun t => decide (0 < avgFor recs g t))

/-- `ORDER BY avg_value ASC LIMIT n` (ties resolved deterministically
by insertion sort, which SQL leaves unspecified). -/
def topStatsN (recs : List StatRecord) (g : Nat) (n : Nat) : List String :=
  (List.insertionSort (fun a b => avgFor recs g a ≤ avgFor recs g b) (qualifying recs g)).take n

/-- Step 5 of the handler: `COUNT(*) ... WHERE game_id = %s AND win IS
NOT NULL` compared with 0. -/
def winTracked (recs : List StatRecord) (g : Nat) : Bool :=
  recs.any (fun r => r.game_id == g && r.win.isSome)

/-- The stat types the handler selects: `LIMIT 2` when win-tracked,
otherwise `LIMIT 3`. -/
def selectedStats (recs : List StatRecord) (g : Nat) : List String :=
  topStatsN recs g (if winTracked recs g then 2 else 3)

/-- Step 7: `SELECT 1 ... WHERE player_id = %s AND game_id = %s AND
CAST(CONVERT_TIMEZONE(%s, played_at) AS DATE) = %s LIMIT 1`. -/
def statsTodayExist (recs : List StatRecord) (p g : Nat) (dateFn : Nat → Nat)
    (today : Nat) : Bool :=
  recs.any (fun r => r.player_id == p && r.game_id == g && dateFn r.played_at == today)

/-- Maximum of a list of dates, `none` when empty (SQL `MAX` is NULL
over no rows). -/
def listMax? : List Nat → Option Nat
  | [] => none
  | a :: l =>
    match listMax? l with
    | none => some a
    | some b => some (max a b)

/-- Step 8: `SELECT MAX(CAST(CONVERT_TIMEZONE(%s, played_at) AS DATE))
... WHERE player_id = %s AND game_id = %s AND ... < %s`. -/
def mostRecentDay (recs : List StatRecord) (p g : Nat) (dateFn : Nat → Nat)
    (today : Nat) : Option Nat :=
  listMax? (recs.filterMap (fun r =>
    if r.player_id == p && r.game_id == g && decide (dateFn r.played_at < today) then
      some (dateFn r.played_at)
    else none))

/-- Rows of the win queries: `player_id = %s AND game_id = %s AND
win = 1 AND CAST(CONVERT_TIMEZONE(%s, played_at) AS DATE) = %s`. -/
def winRecsOn (recs : List StatRecord) (p g : Nat) (dateFn : Nat → Nat)
    (d : Nat) : List StatRecord :=
  recs.filter (fun r =>
    r.player_id == p && r.game_id == g && r.win == some 1 && dateFn r.played_at == d)

/-- The TODAY win query: `COUNT(DISTINCT played_at)` over `winRecsOn`. -/
def todayWinCount (recs : List StatRecord) (p g : Nat) (dateFn : Nat → Nat)
    (d : Nat) : Nat :=
  ((winRecsOn recs p g dateFn d).map (·.played_at)).dedup.length

/-- The PAST win query: `AVG(daily_wins)` over per-day
`COUNT(DISTINCT played_at)` values produced by `GROUP BY` on the
converted date (NULL, i.e. `none`, when no row matches). -/
def pastWinAvg (recs : List StatRecord) (p g : Nat) (dateFn : Nat → Nat)
    (d : Nat) : Option Rat :=
  let rs := winRecsOn recs p g dateFn d
  let dates := (rs.map (fun r => dateFn r.played_at)).dedup
  let counts := dates.map (fun dd =>
    (((rs.filter (fun r => dateFn r.played_at == dd)).map (·.played_at)).dedup.length : Nat))
  if counts.isEmpty then none
  else some (mkRat ((counts.map (fun c => (c : Int))).sum) counts.length)

/-- Row filter of the per-stat value queries: `player_id = %s AND
game_id = %s AND stat_type = %s AND converted date = %s`. -/
def pairTypeOn (p g : Nat) (t : String) (dateFn : Nat → Nat) (d : Nat)
    (r : StatRecord) : Bool :=
  r.player_id == p && r.game_id == g && r.stat_type == some t && dateFn r.played_at == d

/-- The TODAY value query: `SUM(stat_value)` (NULL over no rows is
folded into 0, exactly as the handler leaves `value = 0`). -/
def statSumOn (recs : List StatRecord) (p g : Nat) (t : String)
    (dateFn : Nat → Nat) (d : Nat) : Int :=
  ((recs.filter (pairTypeOn p g t dateFn d)).map (·.stat_value)).sum

/-- The PAST value query: `AVG(stat_value)`, NULL (`none`) over no rows. -/
def statAvgOn (recs : List StatRecord) (p g : Nat) (t : String)
    (dateFn : Nat → Nat) (d : Nat) : Option Rat :=
  let rs := recs.filter (pairTypeOn p g t dateFn d)
  if rs.isEmpty then none
  else some (mkRat ((rs.map (·.stat_value)).sum) rs.length)

/-! ## Python helpers -/

/-- Python 3 `round(x)` on an exact rational `num / den` (`den > 0`,
reduced): round half to even.  With `f = ⌊q⌋` and `r = num mod den`,
the fractional part of `q` is `r / den`, so comparing it with `1/2`
is comparing `2 * r` with `den`; on a tie, whichever of `f` and
`f + 1` is even is chosen. -/
def pyRound (q : Rat) : Int :=
  let d : Int := (q.den : Int)
  let f : Int := q.num.ediv d
  let r : Int := q.num.emod d
  if 2 * r < d then f
  else if d < 2 * r then f + 1
  else if f % 2 == 0 then f else f + 1

/-- Python `str.replace`: replace every non-overlapping occurrence of
`pat` in the character list, scanning left to right.  The `fuel`
argument (instantiated with the list length) only makes the recursion
structural: each step consumes one unit of fuel and at least one
character, so the fuel never runs out before the list does. -/
def replaceAllAux (pat sub : List Char) : Nat → List Char → List Char
  | 0, l => l
  | fuel + 1, l =>
    match l with
    | [] => []
    | c :: rest =>
      if pat.isPrefixOf l && !pat.isEmpty then
        sub ++ replaceAllAux pat sub fuel (List.drop pat.length l)
      else
        c :: replaceAllAux pat sub fuel rest

/-- Python `s.replace(pat, sub)`. -/
def pyReplace (s pat sub : String) : String :=
  ⟨replaceAllAux pat.data sub.data s.data.length s.data⟩

/-- Python `s.strip()`: remove leading and trailing whitespace. -/
def pyStrip (s : String) : String :=
  ⟨((s.data.dropWhile Char.isWhitespace).reverse.dropWhile Char.isWhitespace).reverse⟩

/-- Python `s.upper()` (on the ASCII alphabet the stat types use). -/
def pyUpper (s : String) : String :=
  ⟨s.data.map Char.toUpper⟩

/-- The handler's local helper `abbreviate_stat` (step 9 of
`get_live_dashboard`):
`clean = stat_name.replace("Total", "").replace("Average", "").strip()`,
then first 4 characters uppercased plus `"S"` when `len(clean) > 8`,
else the whole of `clean` uppercased; `"XXXX"` for a falsy name. -/
def abbreviate_stat (stat_name : String) : String :=
  if stat_name == "" then "XXXX"
  else
    let clean := pyStrip (pyReplace (pyReplace stat_name "Total" "") "Average" "")
    if 8 < clean.length then pyUpper (clean.take 4) ++ "S" else pyUpper clean

/-! ## The handler -/

/-- The handler's NULL handling of an `AVG` result: `value` stays `0`
when the aggregate is NULL, otherwise `int(round(float(...)))`. -/
def optRound (o : Option Rat) : Int :=
  match o with
  | none => 0
  | some q => pyRound q

/-- The `for i, stat_type in enumerate(top_stats, stat_index)` loop of
step 10: one `statN` entry per selected stat type, `SUM` (as an
integer) when stats exist today, rounded `AVG` otherwise. -/
def statEntries (recs : List StatRecord) (p g : Nat) (dateFn : Nat → Nat)
    (qd : Nat) (stats_today : Bool) : Nat → List String → List (String × Entry)
  | _, [] => []
  | i, t :: ts =>
    let v : Int :=
      if stats_today then statSumOn recs p g t dateFn qd
      else optRound (statAvgOn recs p g t dateFn qd)
    (s!"stat{i}", ⟨abbreviate_stat t, StatValue.int v⟩)
      :: statEntries recs p g dateFn qd stats_today (i + 1) ts

/-- Step 10 for the TODAY / PAST branches: the optional WINS entry
(key `stat1`) followed by the per-stat entries, plus `time_period`. -/
def buildStats (recs : List StatRecord) (p g : Nat) (dateFn : Nat → Nat)
    (qd : Nat) (top_stats : List String) (include_wins stats_today : Bool)
    (tp : String) : DashResponse :=
  let winPart : List (String × Entry) :=
    if include_wins then
      let wc : Int :=
        if stats_today then (todayWinCount recs p g dateFn qd : Int)
        else optRound (pastWinAvg recs p g dateFn qd)
      [("stat1", ⟨"WINS", StatValue.int wc⟩)]
    else []
  let stat_index := if include_wins then 2 else 1
  ⟨winPart ++ statEntries recs p g dateFn qd stats_today stat_index top_stats, tp⟩

/-- Steps 5–10 of the handler, after authentication, state resolution
and timezone resolution; `dateFn` is the resolved
`CONVERT_TIMEZONE(timezone_str, ·)`-to-date function.  Returns the
outcome and the number of SQL statements executed in these steps.

The final `none` / nonempty-`top_stats` case is the code slip at step
8: the branch runs `abbreviate_stat(stat_type)` inside its loop, but
the `def abbreviate_stat` statement (step 9) has not executed yet, so
the first iteration raises `UnboundLocalError`, which the outer
`except` turns into a 500 response. -/
def dashboardCore (recs : List StatRecord) (player_id game_id : Nat)
    (dateFn : Nat → Nat) (now : Nat) : DashResult × Nat :=
  let today := dateFn now
  let include_wins := winTracked recs game_id
  let top_stats := selectedStats recs game_id
  if top_stats.isEmpty && !include_wins then
    (DashResult.ok ⟨[("stat1", ⟨"STAT 1", StatValue.int 0⟩),
                     ("stat2", ⟨"STAT 2", StatValue.int 0⟩),
                     ("stat3", ⟨"STAT 3", StatValue.int 0⟩)], "NEW GAME"⟩, 2)
  else
    let stats_today := statsTodayExist recs player_id game_id dateFn today
    if stats_today then
      (DashResult.ok (buildStats recs player_id game_id dateFn today top_stats
          include_wins true "TODAY"),
       3 + (if include_wins then 1 else 0) + top_stats.length)
    else
      match mostRecentDay recs player_id game_id dateFn today with
      | some d =>
        (DashResult.ok (buildStats recs player_id game_id dateFn d top_stats
            include_wins false "PAST"),
         4 + (if include_wins then 1 else 0) + top_stats.length)
      | none =>
        if top_stats.isEmpty then
          (DashResult.ok ⟨if include_wins then
              [("stat1", ⟨"WINS", StatValue.str "---"⟩)] else [], "N/A"⟩, 4)
        else
          (DashResult.error, 4)

/-- The `/api/get_live_dashboard` handler.  Returns the outcome and the
total number of SQL statements executed (0 when the shared secret is
rejected; the rejection precedes `get_db_connection()`). -/
def get_live_dashboard (env : Env) (db : Db) (req : Request) : DashResult × Nat :=
  if req.key ≠ some env.secret then (DashResult.unauthorized, 0)
  else
    let timezone_str := (req.tzArg).getD "UTC"
    match db.state with
    | none => (DashResult.noState, 1)
    | some (p?, g?) =>
      match p?, g? with
      | some player_id, some game_id =>
        if player_id = 0 ∨ game_id = 0 then (DashResult.noState, 1)
        else
          match env.tz timezone_str with
          | some f =>
            let r := dashboardCore db.records player_id game_id f env.now
            (r.1, r.2 + 2)
          | none =>
            let r := dashboardCore db.records player_id game_id env.utc env.now
            (r.1, r.2 + 3)
      | _, _ => (DashResult.noState, 1)

/-! ## Concrete test fixtures

A deterministic environment (instants are numbers; the UTC date of an
instant is its hundreds digit sequence, `t / 100`; `now = 500`, so
"today" in UTC is date 5) and small databases exercising each branch
of the handler. -/

/-- A concrete server environment: secret `"s"`, a timezone table that
resolves `"UTC"` and `"EST"` and fails on anything else, `now = 500`. -/
def exEnv : Env :=
  { secret := "s",
    tz := fun z =>
      if z = "UTC" then some (fun t => t / 100)
      else if z = "EST" then some (fun t => (t + 50) / 100)
      else none,
    utc := fun t => t / 100,
    now := 500 }

/-- An authorized request with the `"UTC"` timezone parameter. -/
def reqOk : Request := ⟨some "s", some "UTC"⟩

/-- Row constructor shorthand. -/
def row (p g : Nat) (t : Option String) (v : Int) (w : Option Int)
    (at_ : Nat) : StatRecord :=
  ⟨p, g, t, v, w, at_⟩

/-- Win-tracked game whose stat types have averages 5, 50 and 500. -/
def exDb1 : Db :=
  ⟨some (some 1, some 1),
   [row 1 1 (some "A") 5 none 410,
    row 1 1 (some "B") 50 none 420,
    row 1 1 (some "C") 500 none 430,
    row 1 1 none 0 (some 1) 440]⟩

/-- Records 10 and 15 for `"Kills"` on date 4 (yesterday), none today. -/
def exDb2 : Db :=
  ⟨some (some 1, some 1),
   [row 1 1 (some "Kills") 10 none 410,
    row 1 1 (some "Kills") 15 none 420]⟩

/-- Records 10 and 15 for `"Kills"` today (date 5). -/
def exDb3 : Db :=
  ⟨some (some 1, some 1),
   [row 1 1 (some "Kills") 10 none 510,
    row 1 1 (some "Kills") 15 none 520]⟩

/-- Win-tracked game with a single qualifying stat type. -/
def exDb4 : Db :=
  ⟨some (some 1, some 1), [row 1 1 (some "Kills") 5 (some 1) 410]⟩

/-- The selected pair (player 1, game 1) has no records at all, but the
game has a qualifying stat type through player 2's records. -/
def exDb5 : Db :=
  ⟨some (some 1, some 1), [row 2 1 (some "Kills") 5 none 410]⟩

/-- A game with zero records. -/
def exDb6 : Db := ⟨some (some 1, some 1), []⟩

/-- Win-tracked game with no qualifying stat type (the only record has
`stat_value = 0`); the pair played yesterday. -/
def exDb7 : Db :=
  ⟨some (some 1, some 1), [row 1 1 (some "Kills") 0 (some 1) 410]⟩

/-- Win-tracked game with no qualifying stat type and no records at all
for the selected pair (player 2 owns the only record). -/
def exDb8 : Db :=
  ⟨some (some 1, some 1), [row 2 1 (some "Kills") 0 (some 1) 410]⟩

/-- Abbreviation rule as the spec words it (for comparison with the
code's `abbreviate_stat`): remove the substrings `"Total"` and
`"Average"` (case-sensitive, anywhere in the string), trim whitespace,
then if the cleaned string is longer than 8 characters take its first
4 characters uppercased followed by `"S"`, otherwise uppercase the
whole cleaned string. -/
def specAbbrev (s : String) : String :=
  let cleaned := pyStrip (pyReplace (pyReplace s "Total" "") "Average" "")
  if 8 < cleaned.length then pyUpper (cleaned.take 4) ++ "S" else pyUpper cleaned

/-! ## Basic lemmas -/

/-- `avgFor` is the rational mean `SUM(stat_value) / COUNT(*)` of the
group. -/
theorem avgFor_eq_div (recs : List StatRecord) (g : Nat) (t : String) :
    avgFor recs g t
      = (((typeRecs recs g t).map (·.stat_value)).sum : Rat)
          / (((typeRecs recs g t).length : Nat) : Rat) := by
  rw [avgFor, Rat.mkRat_eq_divInt, Rat.divInt_eq_div]
  norm_num [Function.comp_def]

/-! Generic facts about `take n` of a list sorted by a rational key,
instantiated with `avgFor` to reason about `ORDER BY avg_value ASC
LIMIT n`. -/

/-- The first `n` elements of a key-sorted list are key-sorted. -/
theorem sorted_take (q : List String) (k : String → Rat) (n : Nat) :
    List.Sorted (fun a b => k a ≤ k b)
      ((List.insertionSort (fun a b => k a ≤ k b) q).take n) := by
  haveI : IsTotal String (fun a b => k a ≤ k b) := ⟨fun a b => le_total _ _⟩
  haveI : IsTrans String (fun a b => k a ≤ k b) :=
    ⟨fun a b c hab hbc => le_trans hab hbc⟩
  exact List.Pairwise.sublist (List.take_sublist _ _) (List.sorted_insertionSort _ _)

/-- Every kept element's key is at most every dropped element's key. -/
theorem take_le_rest (q : List String) (k : String → Rat) (n : Nat) (t u : String)
    (ht : t ∈ (List.insertionSort (fun a b => k a ≤ k b) q).take n)
    (hu : u ∈ q) (hu' : u ∉ (List.insertionSort (fun a b => k a ≤ k b) q).take n) :
    k t ≤ k u := by
  haveI : IsTotal String (fun a b => k a ≤ k b) := ⟨fun a b => le_total _ _⟩
  haveI : IsTrans String (fun a b => k a ≤ k b) :=
    ⟨fun a b c hab hbc => le_trans hab hbc⟩
  have hsorted := List.sorted_insertionSort (fun a b => k a ≤ k b) q
  have hu_s : u ∈ List.insertionSort (fun a b => k a ≤ k b) q :=
    (List.perm_insertionSort _ _).symm.subset hu
  rw [← List.take_append_drop n (List.insertionSort (fun a b => k a ≤ k b) q)]
    at hu_s hsorted
  rcases List.mem_append.mp hu_s with h | h
  · exact absurd h hu'
  · exact (List.pairwise_append.mp hsorted).2.2 t ht u h

/-- Kept elements come from the original list. -/
theorem take_mem (q : List String) (k : String → Rat) (n : Nat) (t : String)
    (ht : t ∈ (List.insertionSort (fun a b => k a ≤ k b) q).take n) : t ∈ q :=
  (List.perm_insertionSort _ _).subset (List.take_subset _ _ ht)

/-- `LIMIT n` keeps `min n` of the available rows. -/
theorem take_len (q : List String) (k : String → Rat) (n : Nat) :
    ((List.insertionSort (fun a b => k a ≤ k b) q).take n).length = min n q.length := by
  rw [List.length_take, (List.perm_insertionSort _ _).length_eq]

/-! ## Branch lemmas for the handler -/
theorem run_with_dateFn (env : Env) (db : Db) (req : Request) (p g : Nat) (f : Nat → Nat)
    (hk : req.key = some env.secret)
    (hs : db.state = some (some p, some g)) (hp : p ≠ 0) (hg : g ≠ 0)
    (hf : env.tz ((req.tzArg).getD "UTC") = some f) :
    (get_live_dashboard env db req).1 = (dashboardCore db.records p g f env.now).1 := by
  unfold get_live_dashboard
  rw [hs]
  simp [hk, hf, hp, hg]

theorem run_tz_fallback (env : Env) (db : Db) (req : Request) (p g : Nat)
    (hk : req.key = some env.secret)
    (hs : db.state = some (some p, some g)) (hp : p ≠ 0) (hg : g ≠ 0)
    (hf : env.tz ((req.tzArg).getD "UTC") = none) :
    (get_live_dashboard env db req).1 = (dashboardCore db.records p g env.utc env.now).1 := by
  unfold get_live_dashboard
  rw [hs]
  simp [hk, hf, hp, hg]

theorem core_new_game (recs : List StatRecord) (p g : Nat) (f : Nat → Nat) (now : Nat)
    (hsel : selectedStats recs g = []) (hw : winTracked recs g = false) :
    dashboardCore recs p g f now
      = (DashResult.ok ⟨[("stat1", ⟨"STAT 1", StatValue.int 0⟩),
                         ("stat2", ⟨"STAT 2", StatValue.int 0⟩),
                         ("stat3", ⟨"STAT 3", StatValue.int 0⟩)], "NEW GAME"⟩, 2) := by
  unfold dashboardCore
  simp [hsel, hw]

theorem core_today (recs : List StatRecord) (p g : Nat) (f : Nat → Nat) (now : Nat)
    (hng : ((selectedStats recs g).isEmpty && !winTracked recs g) = false)
    (ht : statsTodayExist recs p g f (f now) = true) :
    (dashboardCore recs p g f now).1
      = DashResult.ok (buildStats recs p g f (f now) (selectedStats recs g)
          (winTracked recs g) true "TODAY") := by
  unfold dashboardCore
  simp [hng, ht]

theorem core_past (recs : List StatRecord) (p g : Nat) (f : Nat → Nat) (now d : Nat)
    (hng : ((selectedStats recs g).isEmpty && !winTracked recs g) = false)
    (ht : statsTodayExist recs p g f (f now) = false)
    (hmr : mostRecentDay recs p g f (f now) = some d) :
    (dashboardCore recs p g f now).1
      = DashResult.ok (buildStats recs p g f d (selectedStats recs g)
          (winTracked recs g) false "PAST") := by
  unfold dashboardCore
  simp [hng, ht, hmr]

theorem core_na_empty (recs : List StatRecord) (p g : Nat) (f : Nat → Nat) (now : Nat)
    (hng : ((selectedStats recs g).isEmpty && !winTracked recs g) = false)
    (hsel : selectedStats recs g = [])
    (ht : statsTodayExist recs p g f (f now) = false)
    (hmr : mostRecentDay recs p g f (f now) = none) :
    (dashboardCore recs p g f now).1
      = DashResult.ok ⟨if winTracked recs g then
          [("stat1", ⟨"WINS", StatValue.str "---"⟩)] else [], "N/A"⟩ := by
  have hw : winTracked recs g = true := by
    cases hwt : winTracked recs g with
    | true => rfl
    | false => rw [hsel, hwt] at hng; simp at hng
  unfold dashboardCore
  simp [hng, ht, hmr, hsel, hw]

theorem core_na_crash (recs : List StatRecord) (p g : Nat) (f : Nat → Nat) (now : Nat)
    (hsel : selectedStats recs g ≠ [])
    (ht : statsTodayExist recs p g f (f now) = false)
    (hmr : mostRecentDay recs p g f (f now) = none) :
    (dashboardCore recs p g f now).1 = DashResult.error := by
  unfold dashboardCore
  simp [ht, hmr, hsel, List.isEmpty_iff]

/-- Entries produced by the step-10 loop: each one belongs to a
selected stat type, carries its abbreviated label, and its value is
the integer `SUM` on a TODAY run and the rounded `AVG` otherwise. -/
theorem mem_statEntries (recs : List StatRecord) (p g : Nat) (dateFn : Nat → Nat)
    (qd : Nat) (st : Bool) (ts : List String) :
    ∀ (i : Nat) (kv : String × Entry), kv ∈ statEntries recs p g dateFn qd st i ts →
      ∃ t ∈ ts, kv.2 = ⟨abbreviate_stat t,
        StatValue.int (if st then statSumOn recs p g t dateFn qd
                       else optRound (statAvgOn recs p g t dateFn qd))⟩ := by
  induction ts with
  | nil => intro i kv h; simp [statEntries] at h
  | cons t ts ih =>
    intro i kv h
    simp only [statEntries] at h
    rcases List.mem_cons.mp h with h | h
    · exact ⟨t, List.mem_cons_self _ _, by rw [h]⟩
    · obtain ⟨u, hu, he⟩ := ih (i + 1) kv h
      exact ⟨u, List.mem_cons_of_mem _ hu, he⟩

/-- The step-10 loop emits one entry per selected stat type. -/
theorem statEntries_length (recs : List StatRecord) (p g : Nat) (dateFn : Nat → Nat)
    (qd : Nat) (st : Bool) (ts : List String) :
    ∀ i : Nat, (statEntries recs p g dateFn qd st i ts).length = ts.length := by
  induction ts with
  | nil => intro i; rfl
  | cons t ts ih => intro i; simp only [statEntries, List.length_cons, ih]

/-- The payload layout of a TODAY / PAST response: the optional WINS
entry followed by the per-stat entries. -/
theorem buildStats_stats (recs : List StatRecord) (p g : Nat) (dateFn : Nat → Nat)
    (qd : Nat) (ts : List String) (iw st : Bool) (tp : String) :
    (buildStats recs p g dateFn qd ts iw st tp).stats
      = (if iw then
          [("stat1", ⟨"WINS", StatValue.int (if st then (todayWinCount recs p g dateFn qd : Int)
              else optRound (pastWinAvg recs p g dateFn qd))⟩)]
         else [])
        ++ statEntries recs p g dateFn qd st (if iw then 2 else 1) ts := rfl

/-- The `time_period` field is the branch tag passed in. -/
theorem buildStats_time (recs : List StatRecord) (p g : Nat) (dateFn : Nat → Nat)
    (qd : Nat) (ts : List String) (iw st : Bool) (tp : String) :
    (buildStats recs p g dateFn qd ts iw st tp).time_period = tp := rfl

/-- With no selected stat types and win tracking on, the payload is
the single WINS entry. -/
theorem buildStats_nil_wins (recs : List StatRecord) (p g : Nat) (dateFn : Nat → Nat)
    (qd : Nat) (st : Bool) (tp : String) :
    (buildStats recs p g dateFn qd [] true st tp).stats
      = [("stat1", ⟨"WINS", StatValue.int (if st then (todayWinCount recs p g dateFn qd : Int)
          else optRound (pastWinAvg recs p g dateFn qd))⟩)] := rfl

/-- No qualifying stat type means nothing is selected. -/
theorem selectedStats_of_qualifying_nil (recs : List StatRecord) (g : Nat)
    (hq : qualifying recs g = []) : selectedStats recs g = [] := by
  unfold selectedStats topStatsN
  rw [hq]
  simp

/-- Boolean case split as a disjunction. -/
theorem bool_true_or_false (b : Bool) : b = true ∨ b = false := by
  cases b
  · exact Or.inr rfl
  · exact Or.inl rfl

/-! ## Claims -/

/-- C1: the live dashboard's stat-type selection takes the qualifying
stat types (records with `stat_value > 0`, average `> 0`) in ascending
order of average `stat_value` — 2 of them for a win-tracked game, 3
otherwise — so every selected type's average is at most every
unselected qualifying type's average; on a win-tracked game whose
three stat types average 5, 50 and 500, the types averaging 5 and 50
are selected, not the larger two. -/
theorem C1_selection_lowest_ascending (recs : List StatRecord) (g : Nat) :
    List.Sorted (fun a b => avgFor recs g a ≤ avgFor recs g b) (selectedStats recs g)
    ∧ (∀ t ∈ selectedStats recs g, t ∈ qualifying recs g)
    ∧ (∀ t ∈ selectedStats recs g, ∀ u ∈ qualifying recs g,
        u ∉ selectedStats recs g → avgFor recs g t ≤ avgFor recs g u)
    ∧ (selectedStats recs g).length
        = min (if winTracked recs g then 2 else 3) (qualifying recs g).length
    ∧ (winTracked exDb1.records 1 = true
        ∧ avgFor exDb1.records 1 "A" = 5
        ∧ avgFor exDb1.records 1 "B" = 50
        ∧ avgFor exDb1.records 1 "C" = 500
        ∧ qualifying exDb1.records 1 = ["A", "B", "C"]
        ∧ selectedStats exDb1.records 1 = ["A", "B"]) := by
  refine ⟨?_, ?_, ?_, ?_, by decide, by decide, by decide, by decide, by decide, by decide⟩
  · exact sorted_take (qualifying recs g) (avgFor recs g) _
  · exact fun t ht => take_mem (qualifying recs g) (avgFor recs g) _ t ht
  · exact fun t ht u hu hu' => take_le_rest (qualifying recs g) (avgFor recs g) _ t u ht hu hu'
  · exact take_len (qualifying recs g) (avgFor recs g) _

/-- Witness for C1 at a concrete input: `"A"` is selected, `"C"`
qualifies but is not selected, and the selected average is no larger. -/
theorem C1_selection_lowest_ascending_witness :
    avgFor exDb1.records 1 "A" ≤ avgFor exDb1.records 1 "C" :=
  (C1_selection_lowest_ascending exDb1.records 1).2.2.1 "A" (by decide) "C"
    (by decide) (by decide)


/-- C2: when the selected pair has no records today but has records on
an earlier date, the handler resolves the most recent such date `d`,
answers with `time_period = "PAST"`, computes the win count (when the
game is win-tracked) as the `GROUP BY`-date average of per-day win
counts, and computes every other stat value as the `AVG` of
`stat_value` on `d` rounded with Python's `round` — round half to
even, so the average 12.5 of records (10, 15) renders as 12. -/
theorem C2_past_rounded_average (env : Env) (db : Db) (req : Request) (p g : Nat)
    (f : Nat → Nat) (d : Nat)
    (hk : req.key = some env.secret)
    (hs : db.state = some (some p, some g)) (hp : p ≠ 0) (hg : g ≠ 0)
    (hf : env.tz ((req.tzArg).getD "UTC") = some f)
    (hng : ((selectedStats db.records g).isEmpty && !winTracked db.records g) = false)
    (ht : statsTodayExist db.records p g f (f env.now) = false)
    (hmr : mostRecentDay db.records p g f (f env.now) = some d) :
    (∃ resp, (get_live_dashboard env db req).1 = DashResult.ok resp
      ∧ resp.time_period = "PAST"
      ∧ (winTracked db.records g = true →
          resp.stats.head? = some ("stat1",
            ⟨"WINS", StatValue.int (optRound (pastWinAvg db.records p g f d))⟩))
      ∧ (∀ kv ∈ resp.stats, kv.2.label = "WINS"
          ∨ ∃ t ∈ selectedStats db.records g,
              kv.2 = ⟨abbreviate_stat t,
                StatValue.int (optRound (statAvgOn db.records p g t f d))⟩))
    ∧ pyRound (mkRat 25 2) = 12 := by
  refine ⟨?_, by decide⟩
  rw [run_with_dateFn env db req p g f hk hs hp hg hf,
    core_past db.records p g f env.now d hng ht hmr]
  refine ⟨_, rfl, buildStats_time _ _ _ _ _ _ _ _ _, ?_, ?_⟩
  · intro hw
    rw [buildStats_stats, hw]
    rfl
  · intro kv hkv
    rw [buildStats_stats] at hkv
    rcases List.mem_append.mp hkv with h | h
    · rcases bool_true_or_false (winTracked db.records g) with hw | hw
      · rw [hw] at h
        have h2 : kv = ("stat1",
            ⟨"WINS", StatValue.int (optRound (pastWinAvg db.records p g f d))⟩) := by
          simpa using h
        left
        rw [h2]
      · rw [hw] at h
        simp at h
    · obtain ⟨t, htmem, he⟩ := mem_statEntries db.records p g f d false
        (selectedStats db.records g) _ kv h
      right
      exact ⟨t, htmem, by simpa using he⟩

/-- Witness for C2 at a concrete input: the pair played dates 4 only,
`now` is on date 5, and the PAST values are the rounded averages. -/
theorem C2_past_rounded_average_witness :
    (∃ resp, (get_live_dashboard exEnv exDb2 reqOk).1 = DashResult.ok resp
      ∧ resp.time_period = "PAST"
      ∧ (winTracked exDb2.records 1 = true →
          resp.stats.head? = some ("stat1",
            ⟨"WINS", StatValue.int (optRound (pastWinAvg exDb2.records 1 1 (fun t => t / 100) 4))⟩))
      ∧ (∀ kv ∈ resp.stats, kv.2.label = "WINS"
          ∨ ∃ t ∈ selectedStats exDb2.records 1,
              kv.2 = ⟨abbreviate_stat t,
                StatValue.int (optRound (statAvgOn exDb2.records 1 1 t (fun tt => tt / 100) 4))⟩))
    ∧ pyRound (mkRat 25 2) = 12 :=
  C2_past_rounded_average exEnv exDb2 reqOk 1 1 (fun t => t / 100) 4 rfl rfl (by decide)
    (by decide) rfl (by decide) (by decide) (by decide)

/-- C2 counterexample: on the claim's own example — records 10 and 15
on the most recent prior date — the `AVG` is 25/2 = 12.5 and the
handler returns the value 12, not the claimed 13: Python's `round`
rounds half to even. -/
theorem C2_counterexample_round_half_even :
    statAvgOn exDb2.records 1 1 "Kills" (fun t => t / 100) 4 = some (mkRat 25 2)
    ∧ (mkRat 25 2 : Rat) = 25 / 2
    ∧ (get_live_dashboard exEnv exDb2 reqOk).1
        = DashResult.ok ⟨[("stat1", ⟨"KILLS", StatValue.int 12⟩)], "PAST"⟩
    ∧ StatValue.int 12 ≠ StatValue.int 13 := by
  refine ⟨by decide, ?_, by decide, by decide⟩
  rw [Rat.mkRat_eq_divInt, Rat.divInt_eq_div]
  norm_num

/-- C3: when the selected pair has a record today, the handler answers
with `time_period = "TODAY"`, the win count (when win-tracked) is the
number of distinct `played_at` instants with `win = 1` on that date,
and every other stat value is the integer `SUM` of `stat_value` for
that stat type on that date — records (10, 15) today for `"Kills"`
yield the value 25. -/
theorem C3_today_sum (env : Env) (db : Db) (req : Request) (p g : Nat) (f : Nat → Nat)
    (hk : req.key = some env.secret)
    (hs : db.state = some (some p, some g)) (hp : p ≠ 0) (hg : g ≠ 0)
    (hf : env.tz ((req.tzArg).getD "UTC") = some f)
    (hng : ((selectedStats db.records g).isEmpty && !winTracked db.records g) = false)
    (ht : statsTodayExist db.records p g f (f env.now) = true) :
    (∃ resp, (get_live_dashboard env db req).1 = DashResult.ok resp
      ∧ resp.time_period = "TODAY"
      ∧ (winTracked db.records g = true →
          resp.stats.head? = some ("stat1",
            ⟨"WINS", StatValue.int (todayWinCount db.records p g f (f env.now))⟩))
      ∧ (∀ kv ∈ resp.stats, kv.2.label = "WINS"
          ∨ ∃ t ∈ selectedStats db.records g,
              kv.2 = ⟨abbreviate_stat t,
                StatValue.int (statSumOn db.records p g t f (f env.now))⟩))
    ∧ (get_live_dashboard exEnv exDb3 reqOk).1
        = DashResult.ok ⟨[("stat1", ⟨"KILLS", StatValue.int 25⟩)], "TODAY"⟩ := by
  refine ⟨?_, by decide⟩
  rw [run_with_dateFn env db req p g f hk hs hp hg hf,
    core_today db.records p g f env.now hng ht]
  refine ⟨_, rfl, buildStats_time _ _ _ _ _ _ _ _ _, ?_, ?_⟩
  · intro hw
    rw [buildStats_stats, hw]
    rfl
  · intro kv hkv
    rw [buildStats_stats] at hkv
    rcases List.mem_append.mp hkv with h | h
    · rcases bool_true_or_false (winTracked db.records g) with hw | hw
      · rw [hw] at h
        have h2 : kv = ("stat1",
            ⟨"WINS", StatValue.int (todayWinCount db.records p g f (f env.now) : Int)⟩) := by
          simpa using h
        left
        rw [h2]
      · rw [hw] at h
        simp at h
    · obtain ⟨t, htmem, he⟩ := mem_statEntries db.records p g f (f env.now) true
        (selectedStats db.records g) _ kv h
      right
      exact ⟨t, htmem, by simpa using he⟩

/-- Witness for C3 at a concrete input: two `"Kills"` records today. -/
theorem C3_today_sum_witness :
    ∃ resp, (get_live_dashboard exEnv exDb3 reqOk).1 = DashResult.ok resp
      ∧ resp.time_period = "TODAY"
      ∧ (winTracked exDb3.records 1 = true →
          resp.stats.head? = some ("stat1",
            ⟨"WINS", StatValue.int (todayWinCount exDb3.records 1 1 (fun t => t / 100) 5)⟩))
      ∧ (∀ kv ∈ resp.stats, kv.2.label = "WINS"
          ∨ ∃ t ∈ selectedStats exDb3.records 1,
              kv.2 = ⟨abbreviate_stat t,
                StatValue.int (statSumOn exDb3.records 1 1 t (fun tt => tt / 100) 5)⟩) :=
  (C3_today_sum exEnv exDb3 reqOk 1 1 (fun t => t / 100) rfl rfl (by decide) (by decide) rfl
    (by decide) (by decide)).1

/-- C4 (amended): for a win-tracked game the handler places a WINS
entry at key `stat1` of every successful response and selects
`min 2 (number of qualifying stat types)` non-win stat types — exactly
2 whenever at least 2 qualify, fewer when fewer exist. -/
theorem C4_wins_and_min_two (env : Env) (db : Db) (req : Request) (p g : Nat)
    (resp : DashResponse)
    (hk : req.key = some env.secret)
    (hs : db.state = some (some p, some g)) (hp : p ≠ 0) (hg : g ≠ 0)
    (hw : winTracked db.records g = true)
    (hok : (get_live_dashboard env db req).1 = DashResult.ok resp) :
    (∃ v, resp.stats.head? = some ("stat1", ⟨"WINS", v⟩))
    ∧ resp.stats.length = 1 + (selectedStats db.records g).length
    ∧ (selectedStats db.records g).length = min 2 (qualifying db.records g).length := by
  have hlen : (selectedStats db.records g).length = min 2 (qualifying db.records g).length := by
    unfold selectedStats
    rw [hw]
    exact take_len (qualifying db.records g) (avgFor db.records g) 2
  have hng : ((selectedStats db.records g).isEmpty && !winTracked db.records g) = false := by
    rw [hw]
    simp
  obtain ⟨F, hcore⟩ : ∃ F, (get_live_dashboard env db req).1
      = (dashboardCore db.records p g F env.now).1 := by
    rcases hftz : env.tz ((req.tzArg).getD "UTC") with _ | f
    · exact ⟨env.utc, run_tz_fallback env db req p g hk hs hp hg hftz⟩
    · exact ⟨f, run_with_dateFn env db req p g f hk hs hp hg hftz⟩
  rw [hcore] at hok
  rcases bool_true_or_false (statsTodayExist db.records p g F (F env.now)) with ht | ht
  · rw [core_today db.records p g F env.now hng ht] at hok
    injection hok with hre
    subst hre
    refine ⟨?_, ?_, hlen⟩
    · rw [buildStats_stats, hw]
      exact ⟨_, rfl⟩
    · rw [buildStats_stats, hw, List.length_append, statEntries_length]
      rfl
  · rcases hmr : mostRecentDay db.records p g F (F env.now) with _ | d
    · rcases hsel : selectedStats db.records g with _ | ⟨t, ts⟩
      · rw [core_na_empty db.records p g F env.now hng hsel ht hmr, hw] at hok
        injection hok with hre
        subst hre
        rw [hsel] at hlen
        exact ⟨⟨_, rfl⟩, rfl, hlen⟩
      · rw [core_na_crash db.records p g F env.now (by rw [hsel]; simp) ht hmr] at hok
        exact absurd hok (by simp)
    · rw [core_past db.records p g F env.now d hng ht hmr] at hok
      injection hok with hre
      subst hre
      refine ⟨?_, ?_, hlen⟩
      · rw [buildStats_stats, hw]
        exact ⟨_, rfl⟩
      · rw [buildStats_stats, hw, List.length_append, statEntries_length]
        rfl

/-- Witness for C4 at a concrete input: a win-tracked game with one
qualifying stat type yields WINS plus that one stat. -/
theorem C4_wins_and_min_two_witness :
    (∃ v, (DashResponse.mk [("stat1", ⟨"WINS", StatValue.int 1⟩),
        ("stat2", ⟨"KILLS", StatValue.int 5⟩)] "PAST").stats.head?
          = some ("stat1", ⟨"WINS", v⟩))
    ∧ (DashResponse.mk [("stat1", ⟨"WINS", StatValue.int 1⟩),
        ("stat2", ⟨"KILLS", StatValue.int 5⟩)] "PAST").stats.length
        = 1 + (selectedStats exDb4.records 1).length
    ∧ (selectedStats exDb4.records 1).length = min 2 (qualifying exDb4.records 1).length :=
  C4_wins_and_min_two exEnv exDb4 reqOk 1 1 _ rfl rfl (by decide) (by decide) (by decide)
    (by decide)

/-- C4 counterexample: a win-tracked game with a single qualifying
stat type selects 1 non-win stat type, not "exactly 2 regardless of
how many stat types exist". -/
theorem C4_counterexample_single_stat_type :
    winTracked exDb4.records 1 = true
    ∧ (selectedStats exDb4.records 1).length = 1
    ∧ (get_live_dashboard exEnv exDb4 reqOk).1
        = DashResult.ok ⟨[("stat1", ⟨"WINS", StatValue.int 1⟩),
            ("stat2", ⟨"KILLS", StatValue.int 5⟩)], "PAST"⟩ := by
  refine ⟨by decide, by decide, by decide⟩

/-- C5: the claim describes the intended `"---"` placeholder response
for a pair with no history, but the code calls `abbreviate_stat`
inside the step-8 loop before the `def abbreviate_stat` statement of
step 9 has executed; with at least one selected stat type the first
iteration raises `UnboundLocalError` and the handler answers 500.  In
`exDb5` the pair (player 1, game 1) has no records while player 2's
records make `"Kills"` a selected stat type. -/
theorem C5_missing_history_crashes :
    (∀ r ∈ exDb5.records, ¬(r.player_id = 1 ∧ r.game_id = 1))
    ∧ selectedStats exDb5.records 1 = ["Kills"]
    ∧ (get_live_dashboard exEnv exDb5 reqOk).1 = DashResult.error := by
  refine ⟨by decide, by decide, by decide⟩

/-- C6: for a game with zero records — hence no win tracking and no
qualifying stat type — the handler returns the fixed `"NEW GAME"`
placeholder: three zero-valued stats labeled STAT 1/2/3, no WINS
entry, as a successful (200) terminal result. -/
theorem C6_new_game_placeholder (env : Env) (db : Db) (req : Request) (p g : Nat)
    (f : Nat → Nat)
    (hk : req.key = some env.secret)
    (hs : db.state = some (some p, some g)) (hp : p ≠ 0) (hg : g ≠ 0)
    (hf : env.tz ((req.tzArg).getD "UTC") = some f)
    (hnone : ∀ r ∈ db.records, r.game_id ≠ g) :
    (get_live_dashboard env db req).1
      = DashResult.ok ⟨[("stat1", ⟨"STAT 1", StatValue.int 0⟩),
                        ("stat2", ⟨"STAT 2", StatValue.int 0⟩),
                        ("stat3", ⟨"STAT 3", StatValue.int 0⟩)], "NEW GAME"⟩ := by
  have hw : winTracked db.records g = false := by
    unfold winTracked
    rw [List.any_eq_false]
    intro r hr
    simp [hnone r hr]
  have hfilter : db.records.filter (relevantStat g) = [] := by
    rw [List.filter_eq_nil_iff]
    intro r hr
    simp [relevantStat, hnone r hr]
  have hq : qualifying db.records g = [] := by
    unfold qualifying statTypes
    rw [hfilter]
    rfl
  have hsel : selectedStats db.records g = [] :=
    selectedStats_of_qualifying_nil db.records g hq
  rw [run_with_dateFn env db req p g f hk hs hp hg hf,
    core_new_game db.records p g f env.now hsel hw]

/-- Witness for C6 at a concrete input: the empty database. -/
theorem C6_new_game_placeholder_witness :
    (get_live_dashboard exEnv exDb6 reqOk).1
      = DashResult.ok ⟨[("stat1", ⟨"STAT 1", StatValue.int 0⟩),
                        ("stat2", ⟨"STAT 2", StatValue.int 0⟩),
                        ("stat3", ⟨"STAT 3", StatValue.int 0⟩)], "NEW GAME"⟩ :=
  C6_new_game_placeholder exEnv exDb6 reqOk 1 1 (fun t => t / 100) rfl rfl (by decide)
    (by decide) rfl (by decide)

/-- C7: for a win-tracked game with no qualifying stat type the
handler does not take the `"NEW GAME"` branch; it proceeds with an
empty selected-stat list, so the response holds exactly the WINS entry
under key `stat1` (plus `time_period`) and no `stat2` or `stat3` key,
in each of the TODAY, PAST and no-history branches. -/
theorem C7_wins_only_response (env : Env) (db : Db) (req : Request) (p g : Nat)
    (f : Nat → Nat)
    (hk : req.key = some env.secret)
    (hs : db.state = some (some p, some g)) (hp : p ≠ 0) (hg : g ≠ 0)
    (hf : env.tz ((req.tzArg).getD "UTC") = some f)
    (hw : winTracked db.records g = true)
    (hq : qualifying db.records g = []) :
    ∃ resp, (get_live_dashboard env db req).1 = DashResult.ok resp
      ∧ (∃ v, resp.stats = [("stat1", ⟨"WINS", v⟩)])
      ∧ resp.stats.map Prod.fst = ["stat1"] := by
  have hsel : selectedStats db.records g = [] :=
    selectedStats_of_qualifying_nil db.records g hq
  have hng : ((selectedStats db.records g).isEmpty && !winTracked db.records g) = false := by
    rw [hw]
    simp
  rw [run_with_dateFn env db req p g f hk hs hp hg hf]
  rcases bool_true_or_false (statsTodayExist db.records p g f (f env.now)) with ht | ht
  · rw [core_today db.records p g f env.now hng ht, hsel, hw]
    exact ⟨_, rfl, ⟨_, buildStats_nil_wins _ _ _ _ _ _ _⟩,
      by rw [buildStats_nil_wins]; rfl⟩
  · rcases hmr : mostRecentDay db.records p g f (f env.now) with _ | d
    · rw [core_na_empty db.records p g f env.now hng hsel ht hmr, hw]
      exact ⟨_, rfl, ⟨_, rfl⟩, rfl⟩
    · rw [core_past db.records p g f env.now d hng ht hmr, hsel, hw]
      exact ⟨_, rfl, ⟨_, buildStats_nil_wins _ _ _ _ _ _ _⟩,
        by rw [buildStats_nil_wins]; rfl⟩

/-- Witness for C7 at a concrete input: the pair has no records and
the game's only record has `stat_value = 0` but `win = 1`. -/
theorem C7_wins_only_response_witness :
    ∃ resp, (get_live_dashboard exEnv exDb8 reqOk).1 = DashResult.ok resp
      ∧ (∃ v, resp.stats = [("stat1", ⟨"WINS", v⟩)])
      ∧ resp.stats.map Prod.fst = ["stat1"] :=
  C7_wins_only_response exEnv exDb8 reqOk 1 1 (fun t => t / 100) rfl rfl (by decide)
    (by decide) rfl (by decide) (by decide)

/-- C8: for every nonempty stat-type string, the label the handler
shows is obtained by removing the substrings `"Total"` and
`"Average"` (case-sensitive, anywhere), trimming whitespace, and
uppercasing the first 4 characters plus `"S"` when the cleaned string
has more than 8 characters, uppercasing the whole of it otherwise;
`"Total Eliminations"` yields `"ELIMS"`, `"Kills"` yields `"KILLS"`,
and the WINS entry's label is the literal `"WINS"`, never
abbreviated. -/
theorem C8_abbreviation_rule (s : String) (hne : s ≠ "") :
    abbreviate_stat s = specAbbrev s
    ∧ abbreviate_stat "Total Eliminations" = "ELIMS"
    ∧ abbreviate_stat "Kills" = "KILLS"
    ∧ (∀ (recs : List StatRecord) (p g : Nat) (dateFn : Nat → Nat) (qd : Nat)
         (ts : List String) (st : Bool) (tp : String),
        ((buildStats recs p g dateFn qd ts true st tp).stats.head?.map
          (fun kv => kv.2.label)) = some "WINS") := by
  refine ⟨?_, by decide, by decide, fun recs p g dateFn qd ts st tp => rfl⟩
  unfold abbreviate_stat specAbbrev
  rw [if_neg]
  simpa using hne

/-- Witness for C8 at a concrete input. -/
theorem C8_abbreviation_rule_witness :
    abbreviate_stat "Kills" = specAbbrev "Kills"
    ∧ abbreviate_stat "Total Eliminations" = "ELIMS"
    ∧ abbreviate_stat "Kills" = "KILLS"
    ∧ (∀ (recs : List StatRecord) (p g : Nat) (dateFn : Nat → Nat) (qd : Nat)
         (ts : List String) (st : Bool) (tp : String),
        ((buildStats recs p g dateFn qd ts true st tp).stats.head?.map
          (fun kv => kv.2.label)) = some "WINS") :=
  C8_abbreviation_rule "Kills" (by decide)

/-- C9: a request whose shared-secret key is missing or different from
the configured secret is answered with the authorization error and
zero SQL statements are executed — the rejection precedes the
database connection. -/
theorem C9_unauthorized_no_queries (env : Env) (db : Db) (req : Request)
    (h : req.key ≠ some env.secret) :
    get_live_dashboard env db req = (DashResult.unauthorized, 0) := by
  unfold get_live_dashboard
  simp [h]

/-- Witness for C9 at a concrete input: a wrong key. -/
theorem C9_unauthorized_no_queries_witness :
    get_live_dashboard exEnv exDb2 ⟨some "nope", some "UTC"⟩
      = (DashResult.unauthorized, 0) :=
  C9_unauthorized_no_queries exEnv exDb2 ⟨some "nope", some "UTC"⟩ (by decide)

/-- C10: when the caller-supplied timezone string fails to convert,
the handler recovers locally: the whole computation proceeds with the
UTC date function, and the outcome is the same as in an environment
whose timezone table resolves every string to UTC — the failure never
surfaces to the caller. -/
theorem C10_timezone_fallback (env : Env) (db : Db) (req : Request) (p g : Nat)
    (hk : req.key = some env.secret)
    (hs : db.state = some (some p, some g)) (hp : p ≠ 0) (hg : g ≠ 0)
    (hf : env.tz ((req.tzArg).getD "UTC") = none) :
    (get_live_dashboard env db req).1 = (dashboardCore db.records p g env.utc env.now).1
    ∧ (get_live_dashboard env db req).1
        = (get_live_dashboard { env with tz := fun _ => some env.utc } db req).1 := by
  have h1 := run_tz_fallback env db req p g hk hs hp hg hf
  have h2 := run_with_dateFn { env with tz := fun _ => some env.utc } db req p g env.utc
    hk hs hp hg rfl
  exact ⟨h1, by rw [h1, h2]⟩

/-- Witness for C10 at a concrete input: an unknown timezone string. -/
theorem C10_timezone_fallback_witness :
    (get_live_dashboard exEnv exDb2 ⟨some "s", some "Nowhere"⟩).1
        = (dashboardCore exDb2.records 1 1 exEnv.utc exEnv.now).1
    ∧ (get_live_dashboard exEnv exDb2 ⟨some "s", some "Nowhere"⟩).1
        = (get_live_dashboard { exEnv with tz := fun _ => some exEnv.utc } exDb2
            ⟨some "s", some "Nowhere"⟩).1 :=
  C10_timezone_fallback exEnv exDb2 ⟨some "s", some "Nowhere"⟩ 1 1 rfl rfl (by decide)
    (by decide) rfl

end VGS
